import Mathlib

/-!
Verification development for the bison-tracker streaming/analytics system.

The definitions below are a shallow embedding of the Python sources:
* `rtsp_bison_tracker_2.py` — `HLSManager` (frame queue, fps sanitization,
  `resolve_path` built on `os.path.normpath` / `os.path.join` /
  `os.path.commonprefix`) and `StreamManager.start_stream`'s fps handling;
* `analytics_engine.py` — `BisonAnalytics` (`process_frame_detections`,
  `_track_movement`, `_update_heatmap`, `_check_alerts`, `_store_detection`,
  `_store_alert`, `_rebuild_heatmap_from_db`, `get_heatmap_data`).

Python floats are modelled as rationals (`ℚ`), with NaN represented by
`Option.none` where the code tests `math.isnan`.  The numeric primitives
`np.sqrt` and `np.arctan2` (whose exact values no property here depends on)
are abstracted as function parameters `sqrtQ` / `atan2Q`, so every theorem
about them holds for every interpretation of those primitives.  Python dicts
keyed by camera id / track id are modelled as association lists, Python's
`deque(maxlen=n)` as a list with an evicting append, and the two SQLite
tables touched by the embedded code (`detections`, `alerts`) as lists of
rows.  Free-text alert `message` strings and their JSON dump are not
modelled (no property depends on them); the structured payload fields are.
-/

/-! ## Python path primitives (posixpath), used by `HLSManager.resolve_path` -/

/-- Python `str.split('/')` on a list of characters: `[] ↦ [[]]`,
separators produce empty components. -/
def splitSlash : List Char → List (List Char)
  | [] => [[]]
  | c :: cs =>
    let r := splitSlash cs
    if c = '/' then [] :: r
    else
      match r with
      | h :: t => (c :: h) :: t
      | [] => [[c]]

/-- One step of `posixpath.normpath`'s component loop: skip `''` and `'.'`,
append ordinary components, pop on `'..'` (unless at an unanchored start or
atop another `'..'`). -/
def normStep (initialSlashes : ℕ) (acc : List (List Char)) (comp : List Char) :
    List (List Char) :=
  if comp = [] ∨ comp = ['.'] then acc
  else if comp ≠ ['.', '.'] ∨ (initialSlashes = 0 ∧ acc = []) ∨
      (acc ≠ [] ∧ acc.getLast? = some ['.', '.']) then
    acc ++ [comp]
  else if acc ≠ [] then acc.dropLast
  else acc

/-- Embedding of `posixpath.normpath` (the `os.path.normpath` used by the
tracker on a POSIX host), including the leading-`//` special case. -/
def normpath (p : String) : String :=
  if p.data = [] then "."
  else
    let initialSlashes : ℕ :=
      if p.data.take 1 = ['/'] then
        if p.data.take 2 = ['/', '/'] ∧ ¬ p.data.take 3 = ['/', '/', '/'] then 2
        else 1
      else 0
    let comps := splitSlash p.data
    let newComps := comps.foldl (normStep initialSlashes) []
    let joined := List.intercalate ['/'] newComps
    let res := List.replicate initialSlashes '/' ++ joined
    String.mk (if res = [] then ['.'] else res)

/-- Embedding of `posixpath.join` restricted to two arguments, as called in
`resolve_path` (`os.path.join(self.tmpdir, name)`). -/
def pyJoin (a b : String) : String :=
  if b.data.take 1 = ['/'] then b
  else if a.data = [] ∨ a.data.getLast? = some '/' then String.mk (a.data ++ b.data)
  else String.mk (a.data ++ '/' :: b.data)

/-- Longest common character prefix of two character lists. -/
def lcpChars : List Char → List Char → List Char
  | a :: as, b :: bs => if a = b then a :: lcpChars as bs else []
  | _, _ => []

/-- Embedding of `os.path.commonprefix` applied to a two-element list, as in
`os.path.commonprefix([candidate, self.tmpdir])`: the longest common string
prefix of the two paths (a purely character-wise operation). -/
def commonprefix2 (s t : String) : String :=
  String.mk (lcpChars s.data t.data)

/-- Embedding of `HLSManager.resolve_path`.  `tmpdir` is `none` when the
manager has no temporary directory (`if not self.tmpdir: return None`). -/
def resolve_path (tmpdir : Option String) (name : String) : Option String :=
  match tmpdir with
  | none => none
  | some d =>
    let candidate := normpath (pyJoin d name)
    if commonprefix2 candidate d ≠ d then none
    else some candidate

/-- Character-level "is a string prefix" test used only to *state* what it
means for a resolved path to stay inside the private directory. -/
def strStartsWith (s pre : String) : Bool :=
  pre.data.isPrefixOf s.data

/-! ## Fps sanitization (`StreamManager.start_stream`, `HLSManager.__init__`)

A reported frame rate is `Option ℚ`: `none` models NaN (`math.isnan`),
`some v` a finite float value; `not fps` is Python falsiness, true exactly
for `0.0`. -/

/-- Embedding of the fps sanitization in `StreamManager.start_stream`:
`if not fps or math.isnan(fps) or fps <= 1: fps = 25.0`. -/
def startStreamFps : Option ℚ → ℚ
  | none => 25
  | some v => if v = 0 ∨ v ≤ 1 then 25 else v

/-- Embedding of the fps sanitization in `HLSManager.__init__`:
`self.fps = float(fps) if fps and not math.isnan(fps) else 25.0`. -/
def hlsInitFps : Option ℚ → ℚ
  | none => 25
  | some v => if v = 0 then 25 else v

/-! ## HLS frame queue (`HLSManager.write_frame`)

`queue.Queue(maxsize=60)`: `put_nowait` raises `queue.Full` exactly when the
queue already holds `maxsize` items; `write_frame` catches `Full` and drops
the frame.  Frames are abstract (`α`). -/

/-- Relevant `HLSManager` state for `write_frame`: the `enabled` and
`running` flags and the bounded frame queue (head = oldest). -/
structure HLSState (α : Type) where
  enabled : Bool
  running : Bool
  frame_q : List α

/-- Embedding of `HLSManager.write_frame`: return unchanged unless enabled
and running; `put_nowait` appends, or drops the frame silently when the
queue already holds 60 items (`except queue.Full: pass`). -/
def write_frame {α : Type} (st : HLSState α) (frame : α) : HLSState α :=
  if ¬ (st.enabled ∧ st.running) then st
  else if 60 ≤ st.frame_q.length then st
  else { st with frame_q := st.frame_q ++ [frame] }

/-! ## Analytics engine (`analytics_engine.py`, class `BisonAnalytics`) -/

/-- Association lists model Python dicts (insertion-ordered; `aset` keeps an
existing key in place and appends a new key at the end, as dicts do). -/
def alookup {α β : Type} [DecidableEq α] : List (α × β) → α → Option β
  | [], _ => none
  | (k, v) :: rest, a => if a = k then some v else alookup rest a

/-- Dict assignment `m[a] = b` on an association list. -/
def aset {α β : Type} [DecidableEq α] : List (α × β) → α → β → List (α × β)
  | [], a, b => [(a, b)]
  | (k, v) :: rest, a, b => if a = k then (a, b) :: rest else (k, v) :: aset rest a b

/-- Python `set.add` on a duplicate-free list model of a set. -/
def saddZ (s : List ℤ) (x : ℤ) : List ℤ :=
  if x ∈ s then s else x :: s

/-- Append to a `collections.deque(maxlen := maxlen)`: when the deque is at
capacity, the oldest (leftmost) element is evicted first. -/
def dequeAppend {α : Type} (maxlen : ℕ) (l : List α) (x : α) : List α :=
  if l.length < maxlen then l ++ [x] else l.tail ++ [x]

/-- Python `int()` truncation toward zero on a (rational-modelled) float. -/
def pyInt (q : ℚ) : ℤ :=
  if q < 0 then ⌈q⌉ else ⌊q⌋

/-- Python truthiness of an optional integer (`if track_id:`): `None` and
`0` are falsy, every other integer truthy. -/
def truthyId : Option ℤ → Bool
  | none => false
  | some v => v ≠ 0

/-- `np.mean` of a (nonempty, in every embedded call site) list of rationals. -/
def npMean (l : List ℚ) : ℚ :=
  l.sum / l.length

/-- Input detection dict: `d.get('track_id')`, `d.get('confidence', 0)` and
`d.get('bbox', [0,0,0,0])` model missing keys with `Option`. -/
structure Detection where
  track_id : Option ℤ
  confidence : Option ℚ
  bbox : Option (ℚ × ℚ × ℚ × ℚ)
deriving DecidableEq

/-- Movement record written by `_track_movement` (every stored record has
all four keys; `direction` is `np.arctan2`, abstracted by `atan2Q`). -/
structure MovementData where
  current_speed : ℚ
  avg_speed : ℚ
  total_distance : ℚ
  direction : ℚ
deriving DecidableEq

/-- Alert dict, also the row shape of the SQLite `alerts` table (which
stores type, severity, camera id, message, and the JSON dump of the dict;
the free-text `message` string is not modelled, the payload fields are). -/
structure Alert where
  type : String
  severity : String
  camera_id : String
  count : Option ℕ
  confidence : Option ℚ
  track_id : Option ℤ
  speed : Option ℚ
deriving DecidableEq

/-- Row of the SQLite `detections` table as written by `_store_detection`. -/
structure DetectionRow where
  camera_id : String
  track_id : Option ℤ
  confidence : Option ℚ
  bbox_x1 : ℚ
  bbox_y1 : ℚ
  bbox_x2 : ℚ
  bbox_y2 : ℚ
  frame_number : ℤ
deriving DecidableEq

/-- The `self.stats` dict (fields touched by the embedded methods). -/
structure Stats where
  total_detections : ℕ
  unique_tracks : List ℤ
  peak_count : ℕ
  peak_time : Option ℚ
  avg_confidence : ℚ
  avg_dwell_time : ℚ
  total_alerts : ℕ
  cameras_active : ℕ

/-- Per-camera heatmap array (`np.zeros((100, 100))` of counters). -/
def Grid : Type := ℤ → ℤ → ℕ

/-- The all-zero 100x100 heatmap array. -/
def zeroGrid : Grid := fun _ _ => 0

/-- Increment a heatmap array at `grid[gy, gx] += 1`. -/
def gridBump (g : Grid) (gy gx : ℤ) : Grid :=
  fun r c => if r = gy ∧ c = gx then g r c + 1 else g r c

/-- Mutable state of a `BisonAnalytics` instance, plus the two SQLite
tables the embedded methods write (`db_detections`, `db_alerts`).
Timestamps are rationals supplied by the caller (`datetime.now()`). -/
structure AState where
  current_detections : List (String × List Detection)
  tracking_history : List (ℤ × List (ℚ × ℚ × ℚ))
  movement_patterns : List (ℤ × MovementData)
  zone_heatmap : List (String × Grid)
  detection_confidence : List ℚ
  stats : Stats
  db_detections : List DetectionRow
  db_alerts : List Alert

/-- Fresh `BisonAnalytics` state (empty dicts, zeroed stats, empty tables). -/
def initState : AState where
  current_detections := []
  tracking_history := []
  movement_patterns := []
  zone_heatmap := []
  detection_confidence := []
  stats :=
    { total_detections := 0
      unique_tracks := []
      peak_count := 0
      peak_time := none
      avg_confidence := 0
      avg_dwell_time := 0
      total_alerts := 0
      cameras_active := 0 }
  db_detections := []
  db_alerts := []

/-- Alert thresholds (`self.alert_thresholds['high_activity']`). -/
def high_activity_threshold : ℕ := 10

/-- Alert threshold `self.alert_thresholds['low_confidence']` (0.3). -/
def low_confidence_threshold : ℚ := 3 / 10

/-- Alert threshold `self.alert_thresholds['rapid_movement']` (50). -/
def rapid_movement_threshold : ℚ := 50

/-- Embedding of `BisonAnalytics._track_movement(track_id, bbox, timestamp)`.
`sqrtQ` abstracts `np.sqrt`, `atan2Q` abstracts `np.arctan2`. -/
def track_movement (sqrtQ : ℚ → ℚ) (atan2Q : ℚ → ℚ → ℚ) (st : AState)
    (track_id : ℤ) (bbox : ℚ × ℚ × ℚ × ℚ) (timestamp : ℚ) : AState :=
  let center_x := (bbox.1 + bbox.2.2.1) / 2
  let center_y := (bbox.2.1 + bbox.2.2.2) / 2
  let position := (center_x, center_y, timestamp)
  let hist := dequeAppend 1000 ((alookup st.tracking_history track_id).getD []) position
  let st1 := { st with tracking_history := aset st.tracking_history track_id hist }
  if 1 < hist.length then
    let prev := hist.getD (hist.length - 2) (0, 0, 0)
    let time_diff := timestamp - prev.2.2
    if 0 < time_diff then
      let distance := sqrtQ ((center_x - prev.1) ^ 2 + (center_y - prev.2.1) ^ 2)
      let speed := distance / time_diff
      let old := alookup st1.movement_patterns track_id
      let md : MovementData :=
        { current_speed := speed
          avg_speed := (old.map (fun p => p.current_speed)).getD 0
          total_distance := (old.map (fun p => p.total_distance)).getD 0 + distance
          direction := atan2Q (center_y - prev.2.1) (center_x - prev.1) }
      { st1 with movement_patterns := aset st1.movement_patterns track_id md }
    else st1
  else st1

/-- Embedding of `BisonAnalytics._update_heatmap(camera_id, bbox)`: the live
update normalizes `bbox[0], bbox[1]` (the top-left corner) to a 10x10 grid
(`min(int(bbox[0]/192), 9)`, `min(int(bbox[1]/108), 9)`). -/
def update_heatmap (st : AState) (camera_id : String) (bbox : ℚ × ℚ × ℚ × ℚ) :
    AState :=
  let grid_x := min (pyInt (bbox.1 / 192)) 9
  let grid_y := min (pyInt (bbox.2.1 / 108)) 9
  let g := (alookup st.zone_heatmap camera_id).getD zeroGrid
  { st with zone_heatmap := aset st.zone_heatmap camera_id (gridBump g grid_y grid_x) }

/-- Embedding of `BisonAnalytics._store_detection(camera_id, detection,
frame_number)`: appends one row to the `detections` table. -/
def store_detection (st : AState) (camera_id : String) (d : Detection)
    (frame_number : ℤ) : AState :=
  let b := d.bbox.getD (0, 0, 0, 0)
  { st with
    db_detections := st.db_detections ++
      [{ camera_id := camera_id
         track_id := d.track_id
         confidence := d.confidence
         bbox_x1 := b.1
         bbox_y1 := b.2.1
         bbox_x2 := b.2.2.1
         bbox_y2 := b.2.2.2
         frame_number := frame_number }] }

/-- Embedding of `BisonAnalytics._store_alert(alert)`: appends one row to
the `alerts` table. -/
def store_alert (st : AState) (a : Alert) : AState :=
  { st with db_alerts := st.db_alerts ++ [a] }

/-- Embedding of `BisonAnalytics._check_alerts(camera_id, detections)`:
evaluates the three alert rules in order, persists (only) the high-activity
alert via `_store_alert`, adds `len(alerts)` to `stats['total_alerts']`, and
returns the new state together with the returned alert list. -/
def check_alerts (st : AState) (camera_id : String) (detections : List Detection) :
    AState × List Alert :=
  let highs : List Alert :=
    if high_activity_threshold < detections.length then
      [{ type := "high_activity"
         severity := "warning"
         camera_id := camera_id
         count := some detections.length
         confidence := none
         track_id := none
         speed := none }]
    else []
  let st1 := highs.foldl store_alert st
  let lows : List Alert :=
    if detections.isEmpty then []
    else
      let avg_conf := npMean (detections.map (fun d => d.confidence.getD 0))
      if avg_conf < low_confidence_threshold then
        [{ type := "low_confidence"
           severity := "info"
           camera_id := camera_id
           count := none
           confidence := some avg_conf
           track_id := none
           speed := none }]
      else []
  let rapids : List Alert :=
    st1.movement_patterns.filterMap fun p =>
      if rapid_movement_threshold < p.2.current_speed then
        some { type := "rapid_movement"
               severity := "warning"
               camera_id := camera_id
               count := none
               confidence := none
               track_id := some p.1
               speed := some p.2.current_speed }
      else none
  let alerts := highs ++ lows ++ rapids
  let st2 := { st1 with stats := { st1.stats with total_alerts := st1.stats.total_alerts + alerts.length } }
  (st2, alerts)

/-- Per-detection body of the loop in `process_frame_detections`: append the
confidence to the bounded window; if the track id is truthy, add it to
`unique_tracks`, track movement and update the heatmap; then store the
detection row. -/
def processDetection (sqrtQ : ℚ → ℚ) (atan2Q : ℚ → ℚ → ℚ) (camera_id : String)
    (frame_number : ℤ) (timestamp : ℚ) (st : AState) (d : Detection) : AState :=
  let confidence := d.confidence.getD 0
  let bbox := d.bbox.getD (0, 0, 0, 0)
  let st1 := { st with detection_confidence := dequeAppend 1000 st.detection_confidence confidence }
  let st2 :=
    if truthyId d.track_id then
      let tid := d.track_id.getD 0
      let sta := { st1 with stats := { st1.stats with unique_tracks := saddZ st1.stats.unique_tracks tid } }
      let stb := track_movement sqrtQ atan2Q sta tid bbox timestamp
      update_heatmap stb camera_id bbox
    else st1
  store_detection st2 camera_id d frame_number

/-- Return value of `process_frame_detections`. -/
structure ProcResult where
  count : ℕ
  alerts : List Alert
  timestamp : ℚ

/-- Embedding of `BisonAnalytics.process_frame_detections(camera_id,
detections, frame_number)`; `timestamp` is the `datetime.now()` of the call
(the whole body runs under the aggregator lock, so it is one atomic step). -/
def process_frame_detections (sqrtQ : ℚ → ℚ) (atan2Q : ℚ → ℚ → ℚ) (st : AState)
    (camera_id : String) (detections : List Detection) (frame_number : ℤ)
    (timestamp : ℚ) : AState × ProcResult :=
  let st1 := { st with current_detections := aset st.current_detections camera_id detections }
  let st2 := { st1 with stats := { st1.stats with
    total_detections := st1.stats.total_detections + detections.length } }
  let st3 := { st2 with stats := { st2.stats with
    cameras_active := (st2.current_detections.filter (fun p => ¬ p.2.isEmpty)).length } }
  let st4 := detections.foldl (processDetection sqrtQ atan2Q camera_id frame_number timestamp) st3
  let st5 := (check_alerts st4 camera_id detections).1
  let alerts := (check_alerts st4 camera_id detections).2
  let current_count := detections.length
  let st6 :=
    if st5.stats.peak_count < current_count then
      { st5 with stats := { st5.stats with peak_count := current_count, peak_time := some timestamp } }
    else st5
  let st7 :=
    if st6.detection_confidence ≠ [] then
      { st6 with stats := { st6.stats with avg_confidence := npMean st6.detection_confidence } }
    else st6
  (st7, { count := detections.length, alerts := alerts, timestamp := timestamp })

/-- One recorded call to `process_frame_detections`. -/
structure Call where
  camera_id : String
  detections : List Detection
  frame_number : ℤ
  timestamp : ℚ

/-- Run a sequence of `process_frame_detections` calls on a fresh
`BisonAnalytics` state. -/
def runCalls (sqrtQ : ℚ → ℚ) (atan2Q : ℚ → ℚ → ℚ) (calls : List Call) : AState :=
  calls.foldl
    (fun st c => (process_frame_detections sqrtQ atan2Q st c.camera_id c.detections
      c.frame_number c.timestamp).1)
    initState

/-- Embedding of the loop body of `_rebuild_heatmap_from_db` for one fetched
row `(camera_id, x1, y1, x2, y2)`: increments the cell obtained from the
bbox center scaled into the 100x100 grid
(`int(center * (100/1920))` / `int(center * (100/1080))`, clamped to 99). -/
def rebuild_heatmap_row (z : List (String × Grid)) (camera_id : String)
    (x1 y1 x2 y2 : ℚ) : List (String × Grid) :=
  let center_x := (x1 + x2) / 2
  let center_y := (y1 + y2) / 2
  let grid_x := min (pyInt (center_x * (100 / 1920))) (100 - 1)
  let grid_y := min (pyInt (center_y * (100 / 1080))) (100 - 1)
  let g := (alookup z camera_id).getD zeroGrid
  aset z camera_id (gridBump g grid_y grid_x)

/-- Add `v` to one cell of a grid (`aggregated_heatmap[agg_y, agg_x] += v`). -/
def gridBump' (acc : Grid) (ay ax : ℤ) (v : ℕ) : Grid :=
  fun r c => if r = ay ∧ c = ax then acc r c + v else acc r c

/-- One step of the double loop of `get_heatmap_data`'s aggregation: cells
with positive counts are added into the coarse cell `(y / 5, x / 5)`
(`scale_y = scale_x = 100 / 20 = 5.0`, `int(y / 5.0) = y / 5`). -/
def dsStep (g : Grid) (acc : Grid) (y x : ℕ) : Grid :=
  if 0 < g (y : ℤ) (x : ℤ) then gridBump' acc ((y : ℤ) / 5) ((x : ℤ) / 5) (g y x) else acc

/-- Embedding of the aggregation loop of `get_heatmap_data`: downsample the
100x100 heatmap array to the 20x20 visualization grid by summing each block
of 5x5 source cells. -/
def downsample (g : Grid) : Grid :=
  (List.range 100).foldl
    (fun acc y => (List.range 100).foldl (fun acc2 x => dsStep g acc2 y x) acc)
    zeroGrid

/-- Cell-wise sum of two heatmap arrays (a partition of the same increments
into two partial grids sums cell-wise). -/
def gridAdd (g₁ g₂ : Grid) : Grid :=
  fun r c => g₁ r c + g₂ r c

/-! ## Helper lemmas -/

/-- Looking up after a dict assignment. -/
theorem alookup_aset {α β : Type} [DecidableEq α] (m : List (α × β)) (k : α)
    (v : β) (k' : α) :
    alookup (aset m k v) k' = if k' = k then some v else alookup m k' := by
  induction m with
  | nil => simp [aset, alookup]
  | cons p rest ih =>
    obtain ⟨a, b⟩ := p
    by_cases hk : k = a
    · subst hk
      simp only [aset, if_pos rfl, alookup]
      by_cases h1 : k' = k <;> simp [h1]
    · simp only [aset, if_neg hk, alookup, ih]
      by_cases h1 : k' = a
      · subst h1
        simp [Ne.symm hk]
      · simp [h1]

/-- A deque append never grows past the cap. -/
theorem dequeAppend_length_le {α : Type} (l : List α) (x : α)
    (h : l.length ≤ 1000) : (dequeAppend 1000 l x).length ≤ 1000 := by
  unfold dequeAppend
  split
  · simp
    omega
  · simp [List.length_tail]
    omega

/-! ## C1: path resolution (code bug: `commonprefix` accepts sibling dirs) -/

/-- C1 (code_bug evidence): with private directory `/tmp/hls_a` and a
sibling directory `/tmp/hls_ab` sharing it as a string prefix, the request
`../hls_ab/secret` normalizes to `/tmp/hls_ab/secret`, which escapes the
private directory (it is neither the directory itself nor under
`/tmp/hls_a/`), yet `resolve_path` accepts it instead of returning `None`,
because `os.path.commonprefix` compares character-wise, not per component.
Plain traversals (`../../etc/passwd`) are rejected and exact in-directory
names are accepted, as the claim states. -/
theorem C1_resolve_path_escape :
    resolve_path (some "/tmp/hls_a") "../hls_ab/secret" = some "/tmp/hls_ab/secret" ∧
    strStartsWith "/tmp/hls_ab/secret" "/tmp/hls_a/" = false ∧
    ("/tmp/hls_ab/secret" : String) ≠ "/tmp/hls_a" ∧
    resolve_path (some "/tmp/hls_a") "segment00001.ts" =
      some "/tmp/hls_a/segment00001.ts" ∧
    resolve_path (some "/tmp/hls_a") "../../etc/passwd" = none := by
  decide

/-! ## C7: full frame queue drops the new frame -/

/-- C7: when the bounded frame queue already holds its full capacity of 60
frames, submitting one more frame via `write_frame` leaves the manager state
(in particular the queue, its 60 frames and its length) completely
unchanged: the new frame is silently discarded. -/
theorem C7_write_frame_full_drops {α : Type} (st : HLSState α) (frame : α)
    (h : st.frame_q.length = 60) : write_frame st frame = st := by
  simp [write_frame, h]

/-- Witness for C7 at a concrete full queue of 60 frames. -/
theorem C7_write_frame_full_drops_witness :
    write_frame ⟨true, true, List.replicate 60 (0 : ℕ)⟩ 1 =
      ⟨true, true, List.replicate 60 (0 : ℕ)⟩ :=
  C7_write_frame_full_drops _ _ (by simp)

/-! ## C8: fps sanitization (corrected) -/

/-- C8 (counterexample): the reported frame rate 1/2 is positive and finite,
yet `start_stream` replaces it by the default 25.0 (its test is `fps <= 1`,
not `fps <= 0`), contradicting the claim that every positive finite rate is
used as-is. -/
theorem C8_counterexample :
    startStreamFps (some (1 / 2)) = 25 ∧ (0 : ℚ) < 1 / 2 ∧ ((1 : ℚ) / 2) ≠ 25 := by
  refine ⟨?_, by norm_num, by norm_num⟩
  norm_num [startStreamFps]

/-- C8 (amended): `start_stream` substitutes the default 25.0 exactly when
the reported rate is NaN or at most 1 (so zero, negative, *and* positive
rates up to 1 are replaced); every rate strictly greater than 1 is used
as-is.  `HLSManager.__init__` substitutes exactly when the value is NaN or
zero; any other value — including negative rates — passes through. -/
theorem C8_fps_sanitization_amended :
    (∀ v : ℚ, 1 < v → startStreamFps (some v) = v) ∧
    (∀ v : ℚ, v ≤ 1 → startStreamFps (some v) = 25) ∧
    startStreamFps none = 25 ∧
    (∀ v : ℚ, v ≠ 0 → hlsInitFps (some v) = v) ∧
    hlsInitFps (some 0) = 25 ∧
    hlsInitFps none = 25 := by
  refine ⟨?_, ?_, rfl, ?_, by norm_num [hlsInitFps], rfl⟩
  · intro v hv
    have h1 : ¬ (v = 0 ∨ v ≤ 1) := by
      rintro (rfl | h) <;> linarith
    simp [startStreamFps, h1]
  · intro v hv
    simp [startStreamFps, Or.inr hv]
  · intro v hv
    simp [hlsInitFps, hv]

/-- Witness for C8's amended theorem at concrete frame rates 30, 1/2 and -5. -/
theorem C8_fps_sanitization_amended_witness :
    startStreamFps (some 30) = 30 ∧ startStreamFps (some (1 / 2)) = 25 ∧
    hlsInitFps (some (-5)) = -5 :=
  ⟨C8_fps_sanitization_amended.1 30 (by norm_num),
   C8_fps_sanitization_amended.2.1 (1 / 2) (by norm_num),
   C8_fps_sanitization_amended.2.2.2.1 (-5) (by norm_num)⟩

/-! ## C9: heatmap downsampling is linear -/

/-- Contribution of source cell `(y, x)` to coarse cell `(a, b)`:
specification helper for reasoning about the aggregation loop. -/
def dsContrib (g : Grid) (a b : ℤ) (y x : ℕ) : ℕ :=
  if a = (y : ℤ) / 5 ∧ b = (x : ℤ) / 5 then g y x else 0

/-- Pointwise effect of one aggregation step. -/
theorem dsStep_apply (g acc : Grid) (y x : ℕ) (a b : ℤ) :
    dsStep g acc y x a b = acc a b + dsContrib g a b y x := by
  unfold dsStep gridBump' dsContrib
  by_cases hg : 0 < g (y : ℤ) (x : ℤ)
  · simp only [if_pos hg]
    by_cases hab : a = (y : ℤ) / 5 ∧ b = (x : ℤ) / 5 <;> simp [hab]
  · have h0 : g (y : ℤ) (x : ℤ) = 0 := Nat.eq_zero_of_not_pos hg
    simp [if_neg hg, h0]

/-- Pointwise effect of the inner aggregation loop. -/
theorem foldl_dsStep_inner (g : Grid) (y : ℕ) (l : List ℕ) (acc : Grid)
    (a b : ℤ) :
    (l.foldl (fun acc2 x => dsStep g acc2 y x) acc) a b =
      acc a b + (l.map (fun x => dsContrib g a b y x)).sum := by
  induction l generalizing acc with
  | nil => simp
  | cons x xs ih =>
    simp only [List.foldl_cons, ih, dsStep_apply, List.map_cons, List.sum_cons]
    ring

/-- Pointwise effect of the outer aggregation loop. -/
theorem foldl_dsStep_outer (g : Grid) (l : List ℕ) (acc : Grid) (a b : ℤ) :
    (l.foldl (fun acc1 y => (List.range 100).foldl
        (fun acc2 x => dsStep g acc2 y x) acc1) acc) a b =
      acc a b + (l.map (fun y =>
        ((List.range 100).map (fun x => dsContrib g a b y x)).sum)).sum := by
  induction l generalizing acc with
  | nil => simp
  | cons y ys ih =>
    simp only [List.foldl_cons, ih, foldl_dsStep_inner, List.map_cons, List.sum_cons]
    ring

/-- Closed form of one cell of the downsampled grid. -/
theorem downsample_apply (g : Grid) (a b : ℤ) :
    downsample g a b =
      ((List.range 100).map (fun y =>
        ((List.range 100).map (fun x => dsContrib g a b y x)).sum)).sum := by
  unfold downsample
  rw [foldl_dsStep_outer]
  simp [zeroGrid]

/-- Sum of a pointwise sum of two list maps. -/
theorem sum_map_add {α : Type} (l : List α) (f h : α → ℕ) :
    (l.map fun i => f i + h i).sum = (l.map f).sum + (l.map h).sum := by
  induction l with
  | nil => simp
  | cons a as ih =>
    simp only [List.map_cons, List.sum_cons, ih]
    ring

/-- C9: the aggregation in `get_heatmap_data` is linear in the
high-resolution grid — downsampling the cell-wise sum of two partial grids
equals the cell-wise sum of the downsampled partial grids, so any partition
of the heatmap increments into two partial grids aggregates to the same
coarse 20x20 grid either way. -/
theorem C9_downsample_linear (g₁ g₂ : Grid) (a b : ℤ) :
    downsample (gridAdd g₁ g₂) a b = downsample g₁ a b + downsample g₂ a b := by
  simp only [downsample_apply]
  have h1 : ∀ y x : ℕ, dsContrib (gridAdd g₁ g₂) a b y x =
      dsContrib g₁ a b y x + dsContrib g₂ a b y x := by
    intro y x
    unfold dsContrib gridAdd
    by_cases h : a = (y : ℤ) / 5 ∧ b = (x : ℤ) / 5 <;> simp [h]
  simp only [h1, sum_map_add]

/-! ## C3: live heatmap update vs startup rebuild (code bug) -/

/-- C3 (code_bug evidence): for the detection bbox
`(960, 540, 1000, 580)` the live update `_update_heatmap` increments grid
cell `(5, 5)` (it uses the bbox *top-left corner* on a 10x10 scale:
`min(int(960/192), 9) = 5`, `min(int(540/108), 9) = 5`), while the startup
rebuild `_rebuild_heatmap_from_db` increments cell `(51, 51)` for the same
persisted row (bbox *center* `(980, 560)` scaled into the full 100x100
grid).  The two mappings touch different cells, so the rebuilt heatmap does
not reproduce the live one. -/
theorem C3_heatmap_mapping_mismatch :
    ((alookup (update_heatmap initState "c" (960, 540, 1000, 580)).zone_heatmap
        "c").getD zeroGrid) 5 5 = 1 ∧
    ((alookup (update_heatmap initState "c" (960, 540, 1000, 580)).zone_heatmap
        "c").getD zeroGrid) 51 51 = 0 ∧
    ((alookup (rebuild_heatmap_row [] "c" 960 540 1000 580) "c").getD
        zeroGrid) 51 51 = 1 ∧
    ((alookup (rebuild_heatmap_row [] "c" 960 540 1000 580) "c").getD
        zeroGrid) 5 5 = 0 := by
  have hx : pyInt ((960 : ℚ) / 192) = 5 := by norm_num [pyInt]
  have hy : pyInt ((540 : ℚ) / 108) = 5 := by norm_num [pyInt]
  have hcx : pyInt (((960 : ℚ) + 1000) / 2 * (100 / 1920)) = 51 := by
    norm_num [pyInt]
  have hcy : pyInt (((540 : ℚ) + 580) / 2 * (100 / 1080)) = 51 := by
    norm_num [pyInt]
  refine ⟨?_, ?_, ?_, ?_⟩ <;>
    simp [update_heatmap, rebuild_heatmap_row, initState, alookup, aset,
      gridBump, zeroGrid, hx, hy, hcx, hcy, min_def]

/-! ## Preservation lemmas for the analytics state machine -/

@[simp] theorem store_detection_stats (st : AState) (c : String) (d : Detection)
    (f : ℤ) : (store_detection st c d f).stats = st.stats := rfl

@[simp] theorem store_detection_tracking (st : AState) (c : String)
    (d : Detection) (f : ℤ) :
    (store_detection st c d f).tracking_history = st.tracking_history := rfl

@[simp] theorem store_detection_movement (st : AState) (c : String)
    (d : Detection) (f : ℤ) :
    (store_detection st c d f).movement_patterns = st.movement_patterns := rfl

@[simp] theorem store_detection_zone (st : AState) (c : String) (d : Detection)
    (f : ℤ) : (store_detection st c d f).zone_heatmap = st.zone_heatmap := rfl

@[simp] theorem store_detection_confwin (st : AState) (c : String)
    (d : Detection) (f : ℤ) :
    (store_detection st c d f).detection_confidence = st.detection_confidence := rfl

@[simp] theorem store_detection_current (st : AState) (c : String)
    (d : Detection) (f : ℤ) :
    (store_detection st c d f).current_detections = st.current_detections := rfl

@[simp] theorem store_detection_db_alerts (st : AState) (c : String)
    (d : Detection) (f : ℤ) :
    (store_detection st c d f).db_alerts = st.db_alerts := rfl

theorem store_detection_db (st : AState) (c : String) (d : Detection) (f : ℤ) :
    (store_detection st c d f).db_detections = st.db_detections ++
      [{ camera_id := c
         track_id := d.track_id
         confidence := d.confidence
         bbox_x1 := (d.bbox.getD (0, 0, 0, 0)).1
         bbox_y1 := (d.bbox.getD (0, 0, 0, 0)).2.1
         bbox_x2 := (d.bbox.getD (0, 0, 0, 0)).2.2.1
         bbox_y2 := (d.bbox.getD (0, 0, 0, 0)).2.2.2
         frame_number := f }] := rfl

@[simp] theorem store_alert_tracking (st : AState) (a : Alert) :
    (store_alert st a).tracking_history = st.tracking_history := rfl

@[simp] theorem store_alert_movement (st : AState) (a : Alert) :
    (store_alert st a).movement_patterns = st.movement_patterns := rfl

@[simp] theorem store_alert_zone (st : AState) (a : Alert) :
    (store_alert st a).zone_heatmap = st.zone_heatmap := rfl

@[simp] theorem store_alert_confwin (st : AState) (a : Alert) :
    (store_alert st a).detection_confidence = st.detection_confidence := rfl

@[simp] theorem store_alert_current (st : AState) (a : Alert) :
    (store_alert st a).current_detections = st.current_detections := rfl

@[simp] theorem store_alert_stats (st : AState) (a : Alert) :
    (store_alert st a).stats = st.stats := rfl

@[simp] theorem store_alert_db_detections (st : AState) (a : Alert) :
    (store_alert st a).db_detections = st.db_detections := rfl

theorem store_alert_db (st : AState) (a : Alert) :
    (store_alert st a).db_alerts = st.db_alerts ++ [a] := rfl

@[simp] theorem update_heatmap_stats (st : AState) (c : String)
    (b : ℚ × ℚ × ℚ × ℚ) : (update_heatmap st c b).stats = st.stats := rfl

@[simp] theorem update_heatmap_tracking (st : AState) (c : String)
    (b : ℚ × ℚ × ℚ × ℚ) :
    (update_heatmap st c b).tracking_history = st.tracking_history := rfl

@[simp] theorem update_heatmap_movement (st : AState) (c : String)
    (b : ℚ × ℚ × ℚ × ℚ) :
    (update_heatmap st c b).movement_patterns = st.movement_patterns := rfl

@[simp] theorem update_heatmap_confwin (st : AState) (c : String)
    (b : ℚ × ℚ × ℚ × ℚ) :
    (update_heatmap st c b).detection_confidence = st.detection_confidence := rfl

@[simp] theorem update_heatmap_current (st : AState) (c : String)
    (b : ℚ × ℚ × ℚ × ℚ) :
    (update_heatmap st c b).current_detections = st.current_detections := rfl

@[simp] theorem update_heatmap_db_detections (st : AState) (c : String)
    (b : ℚ × ℚ × ℚ × ℚ) :
    (update_heatmap st c b).db_detections = st.db_detections := rfl

@[simp] theorem update_heatmap_db_alerts (st : AState) (c : String)
    (b : ℚ × ℚ × ℚ × ℚ) :
    (update_heatmap st c b).db_alerts = st.db_alerts := rfl

@[simp] theorem track_movement_stats (sq : ℚ → ℚ) (a2 : ℚ → ℚ → ℚ)
    (st : AState) (tid : ℤ) (b : ℚ × ℚ × ℚ × ℚ) (ts : ℚ) :
    (track_movement sq a2 st tid b ts).stats = st.stats := by
  simp only [track_movement]
  split
  · split <;> rfl
  · rfl

@[simp] theorem track_movement_confwin (sq : ℚ → ℚ) (a2 : ℚ → ℚ → ℚ)
    (st : AState) (tid : ℤ) (b : ℚ × ℚ × ℚ × ℚ) (ts : ℚ) :
    (track_movement sq a2 st tid b ts).detection_confidence =
      st.detection_confidence := by
  simp only [track_movement]
  split
  · split <;> rfl
  · rfl

@[simp] theorem track_movement_zone (sq : ℚ → ℚ) (a2 : ℚ → ℚ → ℚ)
    (st : AState) (tid : ℤ) (b : ℚ × ℚ × ℚ × ℚ) (ts : ℚ) :
    (track_movement sq a2 st tid b ts).zone_heatmap = st.zone_heatmap := by
  simp only [track_movement]
  split
  · split <;> rfl
  · rfl

@[simp] theorem track_movement_current (sq : ℚ → ℚ) (a2 : ℚ → ℚ → ℚ)
    (st : AState) (tid : ℤ) (b : ℚ × ℚ × ℚ × ℚ) (ts : ℚ) :
    (track_movement sq a2 st tid b ts).current_detections =
      st.current_detections := by
  simp only [track_movement]
  split
  · split <;> rfl
  · rfl

@[simp] theorem track_movement_db_detections (sq : ℚ → ℚ) (a2 : ℚ → ℚ → ℚ)
    (st : AState) (tid : ℤ) (b : ℚ × ℚ × ℚ × ℚ) (ts : ℚ) :
    (track_movement sq a2 st tid b ts).db_detections = st.db_detections := by
  simp only [track_movement]
  split
  · split <;> rfl
  · rfl

@[simp] theorem track_movement_db_alerts (sq : ℚ → ℚ) (a2 : ℚ → ℚ → ℚ)
    (st : AState) (tid : ℤ) (b : ℚ × ℚ × ℚ × ℚ) (ts : ℚ) :
    (track_movement sq a2 st tid b ts).db_alerts = st.db_alerts := by
  simp only [track_movement]
  split
  · split <;> rfl
  · rfl

/-- The `tracking_history` written by `_track_movement`, in closed form. -/
theorem track_movement_tracking (sq : ℚ → ℚ) (a2 : ℚ → ℚ → ℚ) (st : AState)
    (tid : ℤ) (b : ℚ × ℚ × ℚ × ℚ) (ts : ℚ) :
    (track_movement sq a2 st tid b ts).tracking_history =
      aset st.tracking_history tid
        (dequeAppend 1000 ((alookup st.tracking_history tid).getD [])
          ((b.1 + b.2.2.1) / 2, (b.2.1 + b.2.2.2) / 2, ts)) := by
  simp only [track_movement]
  split
  · split <;> rfl
  · rfl

@[simp] theorem check_alerts_fst_tracking (st : AState) (c : String)
    (dets : List Detection) :
    (check_alerts st c dets).1.tracking_history = st.tracking_history := by
  simp only [check_alerts]
  split <;> simp

@[simp] theorem check_alerts_fst_movement (st : AState) (c : String)
    (dets : List Detection) :
    (check_alerts st c dets).1.movement_patterns = st.movement_patterns := by
  simp only [check_alerts]
  split <;> simp

@[simp] theorem check_alerts_fst_zone (st : AState) (c : String)
    (dets : List Detection) :
    (check_alerts st c dets).1.zone_heatmap = st.zone_heatmap := by
  simp only [check_alerts]
  split <;> simp

@[simp] theorem check_alerts_fst_confwin (st : AState) (c : String)
    (dets : List Detection) :
    (check_alerts st c dets).1.detection_confidence =
      st.detection_confidence := by
  simp only [check_alerts]
  split <;> simp

@[simp] theorem check_alerts_fst_current (st : AState) (c : String)
    (dets : List Detection) :
    (check_alerts st c dets).1.current_detections = st.current_detections := by
  simp only [check_alerts]
  split <;> simp

@[simp] theorem check_alerts_fst_db_detections (st : AState) (c : String)
    (dets : List Detection) :
    (check_alerts st c dets).1.db_detections = st.db_detections := by
  simp only [check_alerts]
  split <;> simp

@[simp] theorem check_alerts_fst_total (st : AState) (c : String)
    (dets : List Detection) :
    (check_alerts st c dets).1.stats.total_detections =
      st.stats.total_detections := by
  simp only [check_alerts]
  split <;> simp

@[simp] theorem check_alerts_fst_unique (st : AState) (c : String)
    (dets : List Detection) :
    (check_alerts st c dets).1.stats.unique_tracks =
      st.stats.unique_tracks := by
  simp only [check_alerts]
  split <;> simp

@[simp] theorem processDetection_total (sq : ℚ → ℚ) (a2 : ℚ → ℚ → ℚ)
    (cam : String) (fn : ℤ) (ts : ℚ) (st : AState) (d : Detection) :
    (processDetection sq a2 cam fn ts st d).stats.total_detections =
      st.stats.total_detections := by
  simp only [processDetection]
  split <;> simp

@[simp] theorem processDetection_db_alerts (sq : ℚ → ℚ) (a2 : ℚ → ℚ → ℚ)
    (cam : String) (fn : ℤ) (ts : ℚ) (st : AState) (d : Detection) :
    (processDetection sq a2 cam fn ts st d).db_alerts = st.db_alerts := by
  simp only [processDetection]
  split <;> simp

@[simp] theorem processDetection_current (sq : ℚ → ℚ) (a2 : ℚ → ℚ → ℚ)
    (cam : String) (fn : ℤ) (ts : ℚ) (st : AState) (d : Detection) :
    (processDetection sq a2 cam fn ts st d).current_detections =
      st.current_detections := by
  simp only [processDetection]
  split <;> simp

@[simp] theorem processDetection_confwin (sq : ℚ → ℚ) (a2 : ℚ → ℚ → ℚ)
    (cam : String) (fn : ℤ) (ts : ℚ) (st : AState) (d : Detection) :
    (processDetection sq a2 cam fn ts st d).detection_confidence =
      dequeAppend 1000 st.detection_confidence (d.confidence.getD 0) := by
  simp only [processDetection]
  split <;> simp

theorem processDetection_db (sq : ℚ → ℚ) (a2 : ℚ → ℚ → ℚ) (cam : String)
    (fn : ℤ) (ts : ℚ) (st : AState) (d : Detection) :
    (processDetection sq a2 cam fn ts st d).db_detections =
      st.db_detections ++
        [{ camera_id := cam
           track_id := d.track_id
           confidence := d.confidence
           bbox_x1 := (d.bbox.getD (0, 0, 0, 0)).1
           bbox_y1 := (d.bbox.getD (0, 0, 0, 0)).2.1
           bbox_x2 := (d.bbox.getD (0, 0, 0, 0)).2.2.1
           bbox_y2 := (d.bbox.getD (0, 0, 0, 0)).2.2.2
           frame_number := fn }] := by
  simp only [processDetection]
  split <;> simp [store_detection_db]

/-- When the track id is falsy (`None` or `0`), the per-detection step
leaves every track-related component untouched. -/
theorem processDetection_not_truthy (sq : ℚ → ℚ) (a2 : ℚ → ℚ → ℚ)
    (cam : String) (fn : ℤ) (ts : ℚ) (st : AState) (d : Detection)
    (h : truthyId d.track_id = false) :
    (processDetection sq a2 cam fn ts st d).tracking_history = st.tracking_history ∧
    (processDetection sq a2 cam fn ts st d).movement_patterns = st.movement_patterns ∧
    (processDetection sq a2 cam fn ts st d).zone_heatmap = st.zone_heatmap ∧
    (processDetection sq a2 cam fn ts st d).stats.unique_tracks =
      st.stats.unique_tracks := by
  simp only [processDetection, h]
  simp

theorem foldl_processDetection_total (sq : ℚ → ℚ) (a2 : ℚ → ℚ → ℚ)
    (cam : String) (fn : ℤ) (ts : ℚ) (l : List Detection) (st : AState) :
    (l.foldl (processDetection sq a2 cam fn ts) st).stats.total_detections =
      st.stats.total_detections := by
  induction l generalizing st with
  | nil => rfl
  | cons d ds ih => simp [List.foldl_cons, ih]

theorem foldl_processDetection_db_alerts (sq : ℚ → ℚ) (a2 : ℚ → ℚ → ℚ)
    (cam : String) (fn : ℤ) (ts : ℚ) (l : List Detection) (st : AState) :
    (l.foldl (processDetection sq a2 cam fn ts) st).db_alerts = st.db_alerts := by
  induction l generalizing st with
  | nil => rfl
  | cons d ds ih => simp [List.foldl_cons, ih]

/-- State after the three leading stats updates of
`process_frame_detections` (current detections stored, total bumped,
active-camera count refreshed): proof-structuring helper naming the
intermediate `st3` of the embedding. -/
def preStats (st : AState) (camera_id : String) (detections : List Detection) :
    AState :=
  let st1 := { st with current_detections := aset st.current_detections camera_id detections }
  let st2 := { st1 with stats := { st1.stats with
    total_detections := st1.stats.total_detections + detections.length } }
  { st2 with stats := { st2.stats with
    cameras_active := (st2.current_detections.filter (fun p => ¬ p.2.isEmpty)).length } }

theorem process_fst_tracking (sq : ℚ → ℚ) (a2 : ℚ → ℚ → ℚ) (st : AState)
    (cam : String) (dets : List Detection) (fn : ℤ) (ts : ℚ) :
    (process_frame_detections sq a2 st cam dets fn ts).1.tracking_history =
      (dets.foldl (processDetection sq a2 cam fn ts)
        (preStats st cam dets)).tracking_history := by
  simp only [process_frame_detections, preStats]
  split <;> split <;> simp

theorem process_fst_movement (sq : ℚ → ℚ) (a2 : ℚ → ℚ → ℚ) (st : AState)
    (cam : String) (dets : List Detection) (fn : ℤ) (ts : ℚ) :
    (process_frame_detections sq a2 st cam dets fn ts).1.movement_patterns =
      (dets.foldl (processDetection sq a2 cam fn ts)
        (preStats st cam dets)).movement_patterns := by
  simp only [process_frame_detections, preStats]
  split <;> split <;> simp

theorem process_fst_zone (sq : ℚ → ℚ) (a2 : ℚ → ℚ → ℚ) (st : AState)
    (cam : String) (dets : List Detection) (fn : ℤ) (ts : ℚ) :
    (process_frame_detections sq a2 st cam dets fn ts).1.zone_heatmap =
      (dets.foldl (processDetection sq a2 cam fn ts)
        (preStats st cam dets)).zone_heatmap := by
  simp only [process_frame_detections, preStats]
  split <;> split <;> simp

theorem process_fst_confwin (sq : ℚ → ℚ) (a2 : ℚ → ℚ → ℚ) (st : AState)
    (cam : String) (dets : List Detection) (fn : ℤ) (ts : ℚ) :
    (process_frame_detections sq a2 st cam dets fn ts).1.detection_confidence =
      (dets.foldl (processDetection sq a2 cam fn ts)
        (preStats st cam dets)).detection_confidence := by
  simp only [process_frame_detections, preStats]
  split <;> split <;> simp

theorem process_fst_db_detections (sq : ℚ → ℚ) (a2 : ℚ → ℚ → ℚ) (st : AState)
    (cam : String) (dets : List Detection) (fn : ℤ) (ts : ℚ) :
    (process_frame_detections sq a2 st cam dets fn ts).1.db_detections =
      (dets.foldl (processDetection sq a2 cam fn ts)
        (preStats st cam dets)).db_detections := by
  simp only [process_frame_detections, preStats]
  split <;> split <;> simp

theorem process_fst_unique (sq : ℚ → ℚ) (a2 : ℚ → ℚ → ℚ) (st : AState)
    (cam : String) (dets : List Detection) (fn : ℤ) (ts : ℚ) :
    (process_frame_detections sq a2 st cam dets fn ts).1.stats.unique_tracks =
      (dets.foldl (processDetection sq a2 cam fn ts)
        (preStats st cam dets)).stats.unique_tracks := by
  simp only [process_frame_detections, preStats]
  split <;> split <;> simp

theorem process_fst_total (sq : ℚ → ℚ) (a2 : ℚ → ℚ → ℚ) (st : AState)
    (cam : String) (dets : List Detection) (fn : ℤ) (ts : ℚ) :
    (process_frame_detections sq a2 st cam dets fn ts).1.stats.total_detections =
      st.stats.total_detections + dets.length := by
  simp only [process_frame_detections]
  split <;> split <;>
    simp [foldl_processDetection_total]

/-! ## C5: `total_detections` counts every input detection -/

/-- Running a call sequence from any state adds exactly the summed input
detection counts to `total_detections`. -/
theorem foldl_calls_total (sq : ℚ → ℚ) (a2 : ℚ → ℚ → ℚ) (calls : List Call)
    (st : AState) :
    ((calls.foldl (fun s c => (process_frame_detections sq a2 s c.camera_id
        c.detections c.frame_number c.timestamp).1) st)).stats.total_detections =
      st.stats.total_detections + (calls.map (fun c => c.detections.length)).sum := by
  induction calls generalizing st with
  | nil => simp
  | cons c cs ih =>
    simp only [List.foldl_cons, ih, process_fst_total, List.map_cons, List.sum_cons]
    ring

/-- C5: after any sequence of `process_frame_detections` calls on a fresh
aggregator, `stats['total_detections']` equals the sum of `len(detections)`
over all calls, irrespective of camera ids, frame numbers or detection
contents. -/
theorem C5_total_detections (sq : ℚ → ℚ) (a2 : ℚ → ℚ → ℚ) (calls : List Call) :
    (runCalls sq a2 calls).stats.total_detections =
      (calls.map (fun c => c.detections.length)).sum := by
  have h := foldl_calls_total sq a2 calls initState
  simpa [runCalls, initState] using h

/-! ## C6: track history cap and oldest-first eviction -/

/-- Invariant: every track's stored position history has length at most
1000 (the deque cap). -/
def HistInv (th : List (ℤ × List (ℚ × ℚ × ℚ))) : Prop :=
  ∀ tid : ℤ, ((alookup th tid).getD []).length ≤ 1000

theorem histInv_track_movement (sq : ℚ → ℚ) (a2 : ℚ → ℚ → ℚ) (st : AState)
    (tid : ℤ) (b : ℚ × ℚ × ℚ × ℚ) (ts : ℚ)
    (h : HistInv st.tracking_history) :
    HistInv (track_movement sq a2 st tid b ts).tracking_history := by
  intro t
  rw [track_movement_tracking, alookup_aset]
  split
  · simp only [Option.getD_some]
    exact dequeAppend_length_le _ _ (h tid)
  · exact h t

theorem histInv_processDetection (sq : ℚ → ℚ) (a2 : ℚ → ℚ → ℚ) (cam : String)
    (fn : ℤ) (ts : ℚ) (st : AState) (d : Detection)
    (h : HistInv st.tracking_history) :
    HistInv (processDetection sq a2 cam fn ts st d).tracking_history := by
  simp only [processDetection]
  split
  · simp only [store_detection_tracking, update_heatmap_tracking]
    exact histInv_track_movement _ _ _ _ _ _ h
  · simpa using h

theorem histInv_foldl (sq : ℚ → ℚ) (a2 : ℚ → ℚ → ℚ) (cam : String) (fn : ℤ)
    (ts : ℚ) (l : List Detection) (st : AState)
    (h : HistInv st.tracking_history) :
    HistInv (l.foldl (processDetection sq a2 cam fn ts) st).tracking_history := by
  induction l generalizing st with
  | nil => exact h
  | cons d ds ih =>
    simp only [List.foldl_cons]
    exact ih _ (histInv_processDetection _ _ _ _ _ _ _ h)

theorem histInv_process (sq : ℚ → ℚ) (a2 : ℚ → ℚ → ℚ) (st : AState)
    (cam : String) (dets : List Detection) (fn : ℤ) (ts : ℚ)
    (h : HistInv st.tracking_history) :
    HistInv (process_frame_detections sq a2 st cam dets fn ts).1.tracking_history := by
  rw [process_fst_tracking]
  exact histInv_foldl _ _ _ _ _ _ _ h

theorem histInv_runCalls (sq : ℚ → ℚ) (a2 : ℚ → ℚ → ℚ) (calls : List Call) :
    HistInv (runCalls sq a2 calls).tracking_history := by
  suffices h : ∀ (cs : List Call) (st : AState), HistInv st.tracking_history →
      HistInv ((cs.foldl (fun s c => (process_frame_detections sq a2 s c.camera_id
        c.detections c.frame_number c.timestamp).1) st)).tracking_history by
    refine h calls initState ?_
    intro tid
    simp [initState, alookup]
  intro cs
  induction cs with
  | nil => exact fun st h => h
  | cons c rest ih =>
    intro st h
    simp only [List.foldl_cons]
    exact ih _ (histInv_process _ _ _ _ _ _ _ h)

/-- C6: over every sequence of `process_frame_detections` calls on a fresh
aggregator, no track's position history ever exceeds the fixed cap of 1000
(`deque(maxlen=1000)`); and when a history is at the cap, appending a new
position evicts the oldest (leftmost) stored position first. -/
theorem C6_history_cap (sq : ℚ → ℚ) (a2 : ℚ → ℚ → ℚ) (calls : List Call)
    (tid : ℤ) :
    ((alookup (runCalls sq a2 calls).tracking_history tid).getD []).length ≤ 1000 ∧
    (∀ (l : List (ℚ × ℚ × ℚ)) (x : ℚ × ℚ × ℚ), l.length = 1000 →
      dequeAppend 1000 l x = l.tail ++ [x]) := by
  refine ⟨histInv_runCalls sq a2 calls tid, ?_⟩
  intro l x hl
  simp [dequeAppend, hl]

/-- Witness for C6: the empty call sequence and a concrete history of
exactly 1000 positions. -/
theorem C6_history_cap_witness :
    ((alookup (runCalls (fun _ => 0) (fun _ _ => 0) []).tracking_history 1).getD
      []).length ≤ 1000 ∧
    dequeAppend 1000 (List.replicate 1000 ((0 : ℚ), (0 : ℚ), (0 : ℚ)))
        ((1 : ℚ), (2 : ℚ), (3 : ℚ)) =
      (List.replicate 1000 ((0 : ℚ), (0 : ℚ), (0 : ℚ))).tail ++ [(1, 2, 3)] :=
  ⟨(C6_history_cap (fun _ => 0) (fun _ _ => 0) [] 1).1,
   (C6_history_cap (fun _ => 0) (fun _ _ => 0) [] 1).2 _ _
     (by simp only [List.length_replicate])⟩

/-! ## C4: speed computation is guarded by a strictly positive time delta -/

/-- C4: in `_track_movement`, whenever the elapsed time between the new
position and the previous stored position is not strictly positive, the
speed computation is skipped and `movement_patterns` is left unchanged;
and whenever `movement_patterns` does change, the stored `current_speed`
is exactly the Euclidean pixel distance between the consecutive bbox
centers divided by a strictly positive elapsed time. -/
theorem C4_speed_guard (sqrtQ : ℚ → ℚ) (atan2Q : ℚ → ℚ → ℚ) (st : AState)
    (tid : ℤ) (bbox : ℚ × ℚ × ℚ × ℚ) (ts : ℚ) :
    let center_x := (bbox.1 + bbox.2.2.1) / 2
    let center_y := (bbox.2.1 + bbox.2.2.2) / 2
    let hist := dequeAppend 1000 ((alookup st.tracking_history tid).getD [])
      (center_x, center_y, ts)
    let prev := hist.getD (hist.length - 2) (0, 0, 0)
    (ts - prev.2.2 ≤ 0 →
      (track_movement sqrtQ atan2Q st tid bbox ts).movement_patterns =
        st.movement_patterns) ∧
    (∀ md : MovementData,
      alookup (track_movement sqrtQ atan2Q st tid bbox ts).movement_patterns tid =
        some md →
      alookup st.movement_patterns tid ≠ some md →
      0 < ts - prev.2.2 ∧
        md.current_speed =
          sqrtQ ((center_x - prev.1) ^ 2 + (center_y - prev.2.1) ^ 2) /
            (ts - prev.2.2)) := by
  dsimp only
  constructor
  · intro hle
    simp only [track_movement]
    split
    · split
      · next hpos => exact absurd hpos (by linarith)
      · rfl
    · rfl
  · intro md hmd hne
    simp only [track_movement] at hmd
    split at hmd
    · split at hmd
      · next hpos =>
        rw [alookup_aset, if_pos rfl, Option.some_inj] at hmd
        exact ⟨hpos, by rw [← hmd]⟩
      · exact absurd hmd hne
    · exact absurd hmd hne

/-- Witness for C4 at a concrete first sighting of a track (the previous
position defaults to the new one, so the elapsed time is 0 and the speed
update is skipped). -/
theorem C4_speed_guard_witness :
    (track_movement (fun _ => 0) (fun _ _ => 0) initState 1 (0, 0, 0, 0)
      0).movement_patterns = initState.movement_patterns :=
  (C4_speed_guard (fun _ => 0) (fun _ _ => 0) initState 1 (0, 0, 0, 0) 0).1
    (by simp [initState, alookup, dequeAppend])

/-! ## C10: a detection with track id 0 is treated like one with no track id -/

@[simp] theorem preStats_tracking (st : AState) (cam : String)
    (dets : List Detection) :
    (preStats st cam dets).tracking_history = st.tracking_history := rfl

@[simp] theorem preStats_movement (st : AState) (cam : String)
    (dets : List Detection) :
    (preStats st cam dets).movement_patterns = st.movement_patterns := rfl

@[simp] theorem preStats_zone (st : AState) (cam : String)
    (dets : List Detection) :
    (preStats st cam dets).zone_heatmap = st.zone_heatmap := rfl

@[simp] theorem preStats_confwin (st : AState) (cam : String)
    (dets : List Detection) :
    (preStats st cam dets).detection_confidence = st.detection_confidence := rfl

@[simp] theorem preStats_db_detections (st : AState) (cam : String)
    (dets : List Detection) :
    (preStats st cam dets).db_detections = st.db_detections := rfl

@[simp] theorem preStats_unique (st : AState) (cam : String)
    (dets : List Detection) :
    (preStats st cam dets).stats.unique_tracks = st.stats.unique_tracks := rfl

/-- C10: recording a single detection whose `track_id` is `0` counts it in
`total_detections`, appends its confidence to the rolling window, and
persists it (with `track_id = 0`) to the detections table, but adds nothing
to `unique_tracks`, creates no track history or movement pattern, and does
not touch the heatmap — and a detection with a missing (`None`) track id
leaves those same track components equally untouched, because Python's
`if track_id:` treats `0` and `None` alike. -/
theorem C10_track_id_zero (sq : ℚ → ℚ) (a2 : ℚ → ℚ → ℚ) (st : AState)
    (cam : String) (fn : ℤ) (ts : ℚ) (d : Detection)
    (h : d.track_id = some 0) :
    (process_frame_detections sq a2 st cam [d] fn ts).1.stats.total_detections
        = st.stats.total_detections + 1 ∧
    (process_frame_detections sq a2 st cam [d] fn ts).1.detection_confidence
        = dequeAppend 1000 st.detection_confidence (d.confidence.getD 0) ∧
    (process_frame_detections sq a2 st cam [d] fn ts).1.db_detections
        = st.db_detections ++
          [{ camera_id := cam
             track_id := some 0
             confidence := d.confidence
             bbox_x1 := (d.bbox.getD (0, 0, 0, 0)).1
             bbox_y1 := (d.bbox.getD (0, 0, 0, 0)).2.1
             bbox_x2 := (d.bbox.getD (0, 0, 0, 0)).2.2.1
             bbox_y2 := (d.bbox.getD (0, 0, 0, 0)).2.2.2
             frame_number := fn }] ∧
    (process_frame_detections sq a2 st cam [d] fn ts).1.stats.unique_tracks
        = st.stats.unique_tracks ∧
    (process_frame_detections sq a2 st cam [d] fn ts).1.tracking_history
        = st.tracking_history ∧
    (process_frame_detections sq a2 st cam [d] fn ts).1.movement_patterns
        = st.movement_patterns ∧
    (process_frame_detections sq a2 st cam [d] fn ts).1.zone_heatmap
        = st.zone_heatmap ∧
    (process_frame_detections sq a2 st cam
        [{ track_id := none, confidence := d.confidence, bbox := d.bbox }]
        fn ts).1.stats.unique_tracks = st.stats.unique_tracks ∧
    (process_frame_detections sq a2 st cam
        [{ track_id := none, confidence := d.confidence, bbox := d.bbox }]
        fn ts).1.tracking_history = st.tracking_history ∧
    (process_frame_detections sq a2 st cam
        [{ track_id := none, confidence := d.confidence, bbox := d.bbox }]
        fn ts).1.movement_patterns = st.movement_patterns ∧
    (process_frame_detections sq a2 st cam
        [{ track_id := none, confidence := d.confidence, bbox := d.bbox }]
        fn ts).1.zone_heatmap = st.zone_heatmap := by
  have htr : truthyId d.track_id = false := by rw [h]; rfl
  have hnone : truthyId (none : Option ℤ) = false := rfl
  obtain ⟨e1, e2, e3, e4⟩ :=
    processDetection_not_truthy sq a2 cam fn ts (preStats st cam [d]) d htr
  obtain ⟨g1, g2, g3, g4⟩ :=
    processDetection_not_truthy sq a2 cam fn ts
      (preStats st cam [{ track_id := none, confidence := d.confidence, bbox := d.bbox }])
      { track_id := none, confidence := d.confidence, bbox := d.bbox } hnone
  refine ⟨?_, ?_, ?_, ?_, ?_, ?_, ?_, ?_, ?_, ?_, ?_⟩
  · rw [process_fst_total]
    simp
  · rw [process_fst_confwin]
    simp
  · rw [process_fst_db_detections]
    simp only [List.foldl_cons, List.foldl_nil, processDetection_db,
      preStats_db_detections, h]
  · rw [process_fst_unique]
    simp only [List.foldl_cons, List.foldl_nil, e4, preStats_unique]
  · rw [process_fst_tracking]
    simp only [List.foldl_cons, List.foldl_nil, e1, preStats_tracking]
  · rw [process_fst_movement]
    simp only [List.foldl_cons, List.foldl_nil, e2, preStats_movement]
  · rw [process_fst_zone]
    simp only [List.foldl_cons, List.foldl_nil, e3, preStats_zone]
  · rw [process_fst_unique]
    simp only [List.foldl_cons, List.foldl_nil, g4, preStats_unique]
  · rw [process_fst_tracking]
    simp only [List.foldl_cons, List.foldl_nil, g1, preStats_tracking]
  · rw [process_fst_movement]
    simp only [List.foldl_cons, List.foldl_nil, g2, preStats_movement]
  · rw [process_fst_zone]
    simp only [List.foldl_cons, List.foldl_nil, g3, preStats_zone]

/-- Witness for C10 at a concrete detection with track id 0. -/
theorem C10_track_id_zero_witness :
    (process_frame_detections (fun _ => 0) (fun _ _ => 0) initState "c"
        [⟨some 0, some 1, none⟩] 0 0).1.stats.total_detections =
      initState.stats.total_detections + 1 ∧
    (process_frame_detections (fun _ => 0) (fun _ _ => 0) initState "c"
        [⟨some 0, some 1, none⟩] 0 0).1.tracking_history =
      initState.tracking_history :=
  ⟨(C10_track_id_zero (fun _ => 0) (fun _ _ => 0) initState "c" 0 0
      ⟨some 0, some 1, none⟩ rfl).1,
   (C10_track_id_zero (fun _ => 0) (fun _ _ => 0) initState "c" 0 0
      ⟨some 0, some 1, none⟩ rfl).2.2.2.2.1⟩

/-! ## C2: alert persistence (corrected: only high-activity alerts stored) -/

/-- C2 (counterexample): one detection with confidence 0.1 triggers exactly
one `low_confidence` alert, which is returned to the caller, yet the
`alerts` table stays empty — `_check_alerts` calls `_store_alert` only for
the high-activity rule, so not every triggered alert is persisted. -/
theorem C2_counterexample :
    ((process_frame_detections (fun _ => 0) (fun _ _ => 0) initState "c"
        [⟨none, some (1 / 10), none⟩] 0 0).2.alerts.map (fun a => a.type) =
      ["low_confidence"]) ∧
    (process_frame_detections (fun _ => 0) (fun _ _ => 0) initState "c"
        [⟨none, some (1 / 10), none⟩] 0 0).1.db_alerts = [] := by
  norm_num [process_frame_detections, check_alerts, processDetection,
    store_detection, store_alert, initState, npMean, low_confidence_threshold,
    high_activity_threshold, rapid_movement_threshold, truthyId, dequeAppend,
    alookup, aset]

/-- Alerts whose type is never `high_activity` are dropped by the
high-activity filter. -/
theorem filter_high_nil (l : List Alert)
    (h : ∀ a ∈ l, a.type ≠ "high_activity") :
    l.filter (fun a => a.type = "high_activity") = [] := by
  induction l with
  | nil => rfl
  | cons a as ih =>
    have ha := h a (by simp)
    simp only [List.filter_cons]
    rw [if_neg (by simpa using ha)]
    exact ih fun b hb => h b (by simp [hb])

/-- The `alerts` rows written by `_check_alerts` are exactly the returned
alerts of type `high_activity`. -/
theorem check_alerts_db_filter (st : AState) (cam : String)
    (dets : List Detection) :
    (check_alerts st cam dets).1.db_alerts =
      st.db_alerts ++
        (check_alerts st cam dets).2.filter (fun a => a.type = "high_activity") := by
  have hrapid : ∀ (mp : List (ℤ × MovementData)),
      (mp.filterMap fun p =>
        if rapid_movement_threshold < p.2.current_speed then
          some { type := "rapid_movement", severity := "warning",
                 camera_id := cam, count := none, confidence := none,
                 track_id := some p.1, speed := some p.2.current_speed }
        else (none : Option Alert)).filter
          (fun a => a.type = "high_activity") = [] := by
    intro mp
    refine filter_high_nil _ ?_
    intro a ha
    rw [List.mem_filterMap] at ha
    obtain ⟨p, _, hfa⟩ := ha
    split at hfa
    · cases hfa
      exact (by decide : ("rapid_movement" : String) ≠ "high_activity")
    · cases hfa
  have hlows : ∀ (lows highs : List Alert) (mp : List (ℤ × MovementData)),
      (∀ a ∈ lows, a.type ≠ "high_activity") →
      (highs ++ lows ++ (mp.filterMap fun p =>
        if rapid_movement_threshold < p.2.current_speed then
          some { type := "rapid_movement", severity := "warning",
                 camera_id := cam, count := none, confidence := none,
                 track_id := some p.1, speed := some p.2.current_speed }
        else (none : Option Alert))).filter (fun a => a.type = "high_activity") =
        highs.filter (fun a => a.type = "high_activity") := by
    intro lows highs mp hl
    rw [List.append_assoc, List.filter_append, List.filter_append,
      filter_high_nil lows hl, hrapid]
    simp
  have hlowmem : ∀ a ∈ (if dets.isEmpty then ([] : List Alert)
      else if npMean (dets.map fun d => d.confidence.getD 0) < low_confidence_threshold then
        [{ type := "low_confidence", severity := "info", camera_id := cam,
           count := none,
           confidence := some (npMean (dets.map fun d => d.confidence.getD 0)),
           track_id := none, speed := none }]
      else []), a.type ≠ "high_activity" := by
    intro a ha
    split at ha
    · simp at ha
    · split at ha
      · simp only [List.mem_singleton] at ha
        subst ha
        exact (by decide : ("low_confidence" : String) ≠ "high_activity")
      · simp at ha
  simp only [check_alerts]
  split
  · rw [List.foldl_cons, List.foldl_nil, store_alert_db, hlows _ _ _ hlowmem]
    simp [List.filter_cons]
  · rw [List.foldl_nil, hlows _ _ _ hlowmem]
    simp

/-- C2 (amended): for every `process_frame_detections` call, every
triggered alert is returned to the caller, but only the `high_activity`
alerts among them are appended to the `alerts` table; `low_confidence` and
`rapid_movement` alerts are returned without being persisted. -/
theorem C2_alert_persistence_amended (sq : ℚ → ℚ) (a2 : ℚ → ℚ → ℚ)
    (st : AState) (cam : String) (dets : List Detection) (fn : ℤ) (ts : ℚ) :
    (process_frame_detections sq a2 st cam dets fn ts).1.db_alerts =
      st.db_alerts ++
        ((process_frame_detections sq a2 st cam dets fn ts).2.alerts.filter
          (fun a => a.type = "high_activity")) := by
  simp only [process_frame_detections]
  split <;> split <;>
    simp [check_alerts_db_filter, foldl_processDetection_db_alerts]
